import Mathlib

/-!
Shallow embedding of the ETL transformation engine of this repository
(`src/etl_processor.py`) together with the worksheet-selection and
provider-detection heuristics, and proofs of the specification claims.

Strings are modelled as `List Char`; spreadsheet cell values as `Value`
(missing/NaN, text, or numeric with exact rationals standing for the
floating-point numbers the code manipulates — every arithmetic operation
performed by the code at the claimed inputs is exact in binary floating
point as well).  Python dictionaries are modelled as association lists
built by `dictInsert` (first-insertion position, last value wins), which
reproduces insertion-ordered iteration.  Exceptions are modelled with
`Except`.
-/

/-- A spreadsheet cell value: missing (`NaN`/`None`), text, or numeric. -/
inductive Value where
  | na : Value
  | str : List Char → Value
  | num : ℚ → Value
deriving DecidableEq, Repr

/-- ASCII lower-casing of a character list (`str.lower()`; the data the
claims exercise contains no upper-case accented letters). -/
def lowerChars (s : List Char) : List Char :=
  s.map Char.toLower

/-- `str.strip()`: drop whitespace from both ends. -/
def trimChars (s : List Char) : List Char :=
  ((s.dropWhile Char.isWhitespace).reverse.dropWhile Char.isWhitespace).reverse

/-- Python `needle in hay` on strings: substring containment. -/
def pyIn (needle : List Char) : List Char → Bool
  | [] => needle.isEmpty
  | c :: t => needle.isPrefixOf (c :: t) || pyIn needle t

/-- A regular-expression pattern of the configuration table: every pattern
used by the code is an alternation of plain literals (`"veolia"`,
`"trackdechet|td-registre"`), so `re.search` is: some alternative occurs
as a substring. -/
def patSearch (alternatives : List (List Char)) (s : List Char) : Bool :=
  alternatives.any (fun a => pyIn a s)

/-- `pd.isna` on a cell value. -/
def pyIsNa : Value → Bool
  | .na => true
  | _ => false

/-- Python truthiness of a cell value as used by the code (`if weight:`,
`if container:`, `a or b`).  Every spot where the code tests truthiness
receives either a text/number or Python `None` (never a float NaN), so
`na ↦ false` is faithful. -/
def vTruthy : Value → Bool
  | .na => false
  | .str s => !s.isEmpty
  | .num q => q ≠ 0

/-- Python `value == 0` on a cell value. -/
def vEqZero : Value → Bool
  | .num q => q = 0
  | _ => false

/-- Decimal digits of an integer. -/
def intChars (n : ℤ) : List Char :=
  if n < 0 then '-' :: Nat.toDigits 10 n.natAbs else Nat.toDigits 10 n.natAbs

/-- Rendering of a numeric cell (used only when the code formats a value
into a string; the claims only format text cells, for which `showValue`
is the identity). -/
def ratChars (q : ℚ) : List Char :=
  if q.den = 1 then intChars q.num
  else intChars q.num ++ '/' :: Nat.toDigits 10 q.den

/-- Python `str(value)` on a cell (`str(nan)` is `"nan"`). -/
def showValue : Value → List Char
  | .na => "nan".data
  | .str s => s
  | .num q => ratChars q

instance [DecidableEq ε] [DecidableEq α] : DecidableEq (Except ε α) := fun x y =>
  match x, y with
  | .error a, .error b => decidable_of_iff (a = b) (by simp)
  | .ok a, .ok b => decidable_of_iff (a = b) (by simp)
  | .error _, .ok _ => isFalse (by simp)
  | .ok _, .error _ => isFalse (by simp)

/-- `dict.get(key)` on an association list. -/
def assocFind (k : List Char) : List (List Char × α) → Option α
  | [] => none
  | (k', v) :: t => if k' = k then some v else assocFind k t

/-- `dict[key] = value`: update in place if the key exists (iteration
order keeps the first insertion position), else append. -/
def dictInsert (k : List Char) (v : α) (d : List (List Char × α)) :
    List (List Char × α) :=
  if d.any (fun p => p.1 = k) then
    d.map (fun p => if p.1 = k then (k, v) else p)
  else d ++ [(k, v)]

/-- Python `a or b` where `a` is an optional column name (column names
produced by the reader are never empty, so only `None` is falsy). -/
def orOpt (a b : Option α) : Option α :=
  match a with
  | some x => some x
  | none => b

/-- Python `a or b` on cell values. -/
def pyOr (a b : Value) : Value :=
  if vTruthy a then a else b

/-- Value of an unsigned digit string. -/
def digitsNat (ds : List Char) : ℕ :=
  ds.foldl (fun a c => a * 10 + (c.toNat - 48)) 0

/-- Parse the fractional and integer parts of an unsigned decimal literal
(`"2.5"`, `"2."`, `".5"`). -/
def parseUnsignedFloat (s : List Char) : Option ℚ :=
  let intPart := s.takeWhile Char.isDigit
  let rest := s.dropWhile Char.isDigit
  match rest with
  | [] => if intPart.isEmpty then none else some (digitsNat intPart : ℚ)
  | '.' :: frac =>
    if frac.all Char.isDigit && !(intPart.isEmpty && frac.isEmpty) then
      some ((digitsNat intPart : ℚ) + (digitsNat frac : ℚ) / 10 ^ frac.length)
    else none
  | _ => none

/-- Python `float(string)`: strip, optional sign, decimal literal
(exponent and infinity forms, unused by the data the claims exercise,
are not recognised). -/
def parseFloatChars (s : List Char) : Option ℚ :=
  match trimChars s with
  | '-' :: rest => (parseUnsignedFloat rest).map Neg.neg
  | '+' :: rest => parseUnsignedFloat rest
  | t => parseUnsignedFloat t

/-- Python `float(value)`; raises `ValueError` on unparseable text. -/
def toFloat : Value → Except (List Char) ℚ
  | .num q => .ok q
  | .str s =>
    match parseFloatChars s with
    | some q => .ok q
    | none => .error (("could not convert string to float: '").data ++ s ++ ("'").data)
  | .na => .error ("float() argument must be a string or a real number").data

/-! ## Provider configuration registry (`PRESTATAIRE_CONFIG`) -/

/-- One provider profile of `PRESTATAIRE_CONFIG`. -/
structure PrestConfig where
  pattern : List (List Char)
  weightUnit : List Char
  fileType : Option (List Char)
  csvSeparator : Option (List Char)
  sheetPatterns : Option (List (List Char))
  headerRowDetection : Bool
  bsddFormat : Bool
  columns : List (List Char × List (List Char))
deriving DecidableEq, Repr

/-- Profile used for `PRESTATAIRE_CONFIG.get(prestataire, {})` when the
name is not registered: an empty dictionary. -/
def emptyConfig : PrestConfig :=
  { pattern := [], weightUnit := [], fileType := none, csvSeparator := none,
    sheetPatterns := none, headerRowDetection := false, bsddFormat := false,
    columns := [] }

def veoliaConfig : PrestConfig :=
  { pattern := ["veolia".data], weightUnit := "tonnes".data,
    fileType := none, csvSeparator := none, sheetPatterns := none,
    headerRowDetection := false, bsddFormat := false,
    columns :=
      [("date".data, ["date de réalisation".data, "date".data]),
       ("site".data, ["lieu de collecte".data, "site".data, "adresse".data, "lieu".data]),
       ("waste".data, ["matière".data, "déchet".data, "type de déchet".data]),
       ("weight".data, ["poids".data, "masse".data, "quantité".data, "kg".data, "tonnage".data]),
       ("treatment_code".data, ["code de traitement".data, "code traitement".data, "code r/d".data]),
       ("waste_code".data, ["cod ced".data, "code déchet".data]),
       ("container".data, ["matériel".data, "contenant".data, "bac".data]),
       ("quantity".data, ["quantité facturée".data, "nombre".data, "nb".data]),
       ("exutoire".data, ["exutoire".data, "destination".data, "installation".data]),
       ("transporter".data, ["transporteur".data]),
       ("bsd".data, ["n° de bon d'enlèvement".data, "bsd".data, "bordereau".data])] }

def suezConfig : PrestConfig :=
  { pattern := ["suez".data], weightUnit := "tonnes".data,
    fileType := none, csvSeparator := none,
    sheetPatterns := some ["registre".data, "déchets".data, "data".data],
    headerRowDetection := true, bsddFormat := false,
    columns :=
      [("date".data, ["date de l'expédition".data, "date".data, "date collecte".data]),
       ("site".data, ["nom du site".data, "site".data, "adresse".data]),
       ("waste".data, ["matière".data, "déchet".data, "type".data]),
       ("weight".data, ["qté pesée".data, "poids".data, "masse".data, "quantité pesée".data]),
       ("treatment_code".data, ["code r/d".data, "code de traitement".data]),
       ("treatment_name".data, ["libellé r/d".data, "traitement".data]),
       ("waste_code".data, ["code déchet".data, "code ced".data]),
       ("container_qty".data, ["qté de matériel".data, "nombre".data]),
       ("container_vol".data, ["volume du matériel".data, "volume".data]),
       ("exutoire".data, ["nom de l'installation".data, "exutoire".data]),
       ("transporter".data, ["nom.1".data, "transporteur".data]),
       ("bsd".data, ["n° du bsd".data, "bsd".data])] }

def apeyronConfig : PrestConfig :=
  { pattern := ["apeyron".data], weightUnit := "kg".data,
    fileType := none, csvSeparator := none, sheetPatterns := none,
    headerRowDetection := false, bsddFormat := false,
    columns :=
      [("date".data, ["date".data, "date collecte".data, "jour".data]),
       ("site".data, ["nom etablissement".data, "etablissement".data, "site".data, "client".data]),
       ("weight".data, ["poids total kg".data, "poids".data, "kg".data, "masse".data]),
       ("container_code".data, ["volume bac".data, "bac".data, "contenant".data]),
       ("container_qty".data, ["nb bac".data, "nombre bac".data, "nb".data])] }

def alchimistesConfig : PrestConfig :=
  { pattern := ["alchimiste".data], weightUnit := "kg".data,
    fileType := none, csvSeparator := none, sheetPatterns := none,
    headerRowDetection := true, bsddFormat := false,
    columns :=
      [("date".data, ["date".data, "date collecte".data, "jour".data]),
       ("site".data, ["site".data, "client".data, "établissement".data, "etablissement".data, "nom".data]),
       ("waste".data, ["matière".data, "déchet".data, "type".data, "flux".data]),
       ("weight".data, ["poids".data, "kg".data, "masse".data, "quantité".data, "collecte".data]),
       ("treatment_code".data, ["code".data, "traitement".data, "r/d".data])] }

def paprecConfig : PrestConfig :=
  { pattern := ["paprec".data], weightUnit := "kg".data,
    fileType := none, csvSeparator := none, sheetPatterns := none,
    headerRowDetection := false, bsddFormat := false,
    columns :=
      [("site_id".data, ["numéro contrat".data, "contrat".data, "numero contrat".data]),
       ("date".data, ["date prestation".data, "date".data]),
       ("waste".data, ["libellé qualité".data, "qualité".data, "matière".data]),
       ("container".data, ["libellé matériel".data, "matériel".data]),
       ("quantity".data, ["quantité".data, "nombre".data]),
       ("weight".data, ["poids".data, "masse".data]),
       ("bsd".data, ["numerobe".data, "n° be".data]),
       ("month".data, ["mois".data]),
       ("year".data, ["année".data])] }

def eliseConfig : PrestConfig :=
  { pattern := ["elise".data], weightUnit := "kg".data,
    fileType := some "csv".data, csvSeparator := some ";".data,
    sheetPatterns := none, headerRowDetection := false, bsddFormat := false,
    columns :=
      [("site_name".data, ["nom".data]),
       ("date".data, ["date collecte".data, "date".data]),
       ("waste".data, ["gisement".data, "matière".data]),
       ("waste_code".data, ["code nomenclature".data]),
       ("weight".data, ["quantité".data, "kg".data]),
       ("treatment_code_intermediate".data, ["code d/r".data]),
       ("exutoire".data, ["installation".data])] }

def screlecConfig : PrestConfig :=
  { pattern := ["screlec".data], weightUnit := "tonnes".data,
    fileType := none, csvSeparator := none, sheetPatterns := none,
    headerRowDetection := false, bsddFormat := true,
    columns :=
      [("bsd".data, ["n° de bordereau".data]),
       ("date".data, ["date de réalisation".data, "date d'expédition".data]),
       ("waste_name".data, ["dénomination usuelle".data]),
       ("waste_code".data, ["code du déchet".data]),
       ("weight".data, ["quantité réceptionnée".data, "quantité acceptée".data]),
       ("site_name".data, ["expéditeur nom usuel".data]),
       ("treatment_code".data, ["code opération réalisé".data]),
       ("transporter".data, ["transporteur raison sociale".data]),
       ("destination".data, ["destination raison sociale".data])] }

def trackdechetConfig : PrestConfig :=
  { pattern := ["trackdechet".data, "td-registre".data], weightUnit := "tonnes".data,
    fileType := none, csvSeparator := none, sheetPatterns := none,
    headerRowDetection := false, bsddFormat := true,
    columns :=
      [("bsd".data, ["n° de bordereau".data]),
       ("date".data, ["date de réalisation".data, "date d'expédition".data]),
       ("waste_name".data, ["dénomination usuelle".data]),
       ("waste_code".data, ["code du déchet".data]),
       ("weight".data, ["quantité réceptionnée".data, "quantité acceptée".data]),
       ("site_name".data, ["expéditeur nom usuel".data]),
       ("treatment_code".data, ["code opération réalisé".data]),
       ("transporter".data, ["transporteur raison sociale".data]),
       ("destination".data, ["destination raison sociale".data])] }

/-- The provider registry, in the source's declaration (= iteration)
order. -/
def PRESTATAIRE_CONFIG : List (List Char × PrestConfig) :=
  [("Veolia".data, veoliaConfig),
   ("Suez".data, suezConfig),
   ("Apeyron".data, apeyronConfig),
   ("Les Alchimistes".data, alchimistesConfig),
   ("Paprec".data, paprecConfig),
   ("Elise".data, eliseConfig),
   ("Screlec".data, screlecConfig),
   ("Trackdechet".data, trackdechetConfig)]

/-- `PAPREC_CONTAINER_VOLUMES`. -/
def PAPREC_CONTAINER_VOLUMES : List (List Char × ℕ) :=
  [("bac roulant 660l".data, 660), ("bac roulant 340l".data, 340),
   ("bac roulant 770l".data, 770), ("bac roulant 240l".data, 240),
   ("bac roulant 120l".data, 120), ("caisse palette 600l".data, 600),
   ("palette".data, 1000), ("balle".data, 1000), ("box".data, 1000),
   ("sac".data, 110)]

/-- `PAPREC_CONTAINER_TYPES`. -/
def PAPREC_CONTAINER_TYPES : List (List Char × List Char) :=
  [("bac roulant 660l".data, "Bac 4 roues - 660 L".data),
   ("bac roulant 340l".data, "Bac 2 roues - 340 L".data),
   ("bac roulant 770l".data, "Bac 4 roues - 770 L".data),
   ("bac roulant 240l".data, "Bac 2 roues - 240 L".data),
   ("bac roulant 120l".data, "Bac 2 roues - 120 L".data),
   ("caisse palette 600l".data, "Caisse Palette - 600 L".data),
   ("palette".data, "Palette - 1 m3".data),
   ("balle".data, "Balle - 1 m3".data),
   ("box".data, "Box - 1 m3".data),
   ("sac".data, "Sac - 110 L".data),
   ("vrac".data, "Equipement inconnu".data)]

/-- `ETLProcessor.detect_prestataire`: lower-case the filename and return
the first registry entry whose pattern matches. -/
def detectPrestataire (filename : List Char) : Option (List Char) :=
  (PRESTATAIRE_CONFIG.find? (fun p => patSearch p.2.pattern (lowerChars filename))).map
    (fun p => p.1)

/-! ## Tabular data model -/

/-- One data row, as the ordered association of column name to cell. -/
abbrev Row := List (List Char × Value)

/-- A data frame: ordered column names plus rows. -/
structure DataFrame where
  cols : List (List Char)
  rows : List Row
deriving DecidableEq, Repr

/-- `row.get(column)`: `none` models the Python `None` a missing column
yields. -/
def rowGet (r : Row) (c : List Char) : Option Value :=
  assocFind c r

/-- `row.get(col)` collapsing both a missing column and a NaN cell to a
missing value, as every consumer of the raw cell does. -/
def rowGetD (r : Row) (c : List Char) : Value :=
  (rowGet r c).getD Value.na

/-- `ETLProcessor._safe_get`. -/
def safeGet (r : Row) (column : Option (List Char)) (default : Value) : Value :=
  match column with
  | none => default
  | some c =>
    match rowGet r c with
    | none => default
    | some v => if pyIsNa v then default else v

/-- `df[col] = value`: replace the column if present, else append it. -/
def setCol (c : List Char) (v : Value) (df : DataFrame) : DataFrame :=
  if df.cols.contains c then
    { cols := df.cols, rows := df.rows.map (fun r => dictInsert c v r) }
  else
    { cols := df.cols ++ [c], rows := df.rows.map (fun r => r ++ [(c, v)]) }

/-- `pd.concat(dfs, ignore_index=True)`: union of the columns in order of
first appearance, rows stacked (cells a frame lacks read as missing). -/
def concatDFs (dfs : List DataFrame) : DataFrame :=
  { cols := dfs.foldl (fun acc d => acc ++ d.cols.filter (fun c => !acc.contains c)) [],
    rows := dfs.foldl (fun acc d => acc ++ d.rows) [] }

/-- `ETLProcessor._find_column`: first candidate substring that occurs
(case-insensitively) in some column name, returning that column. -/
def findColumn (cols : List (List Char)) (possibleNames : List (List Char)) :
    Option (List Char) :=
  possibleNames.findSome? (fun name =>
    cols.find? (fun col => pyIn (lowerChars name) (lowerChars col)))

/-! ## Worksheet selection and header detection (`ETLProcessor._read_file`) -/

/-- Which worksheet the reader will ask the spreadsheet library for:
either a position or a literal sheet name. -/
inductive SheetChoice where
  | pos : ℕ → SheetChoice
  | name : List Char → SheetChoice
deriving DecidableEq, Repr

/-- The sheet-selection block of `_read_file` (source lines 356-365).
With a configured keyword list, each keyword in turn overwrites the
choice with its own first case-insensitive substring match (the `break`
of the source leaves only the inner loop, so a later keyword's match
replaces an earlier one's).  Without a keyword list, the literal name
`'registre'` is used when some sheet name lower-cases to it, else the
first sheet by position. -/
def chooseSheet (config : PrestConfig) (sheetNames : List (List Char)) :
    SheetChoice :=
  match config.sheetPatterns with
  | some pats =>
    pats.foldl (fun acc p =>
      match sheetNames.find? (fun s => pyIn (lowerChars p) (lowerChars s)) with
      | some s => SheetChoice.name s
      | none => acc) (SheetChoice.pos 0)
  | none =>
    if (sheetNames.map lowerChars).contains ("registre".data) then
      SheetChoice.name ("registre".data)
    else SheetChoice.pos 0

/-- The header-row auto-detection block of `_read_file` (source lines
367-376), over the first 15 raw rows: the first row whose non-missing
cells, lower-cased and space-joined, contain `"date"` and one of
`"poids"`, `"kg"`, `"matière"`; row 0 when none qualifies. -/
def detectHeaderRow (rawRows : List (List Value)) : ℕ :=
  let joined : List Value → List Char := fun cells =>
    (cells.filter (fun v => !pyIsNa v)).foldl
      (fun acc v => if acc.isEmpty then lowerChars (showValue v)
                    else acc ++ ' ' :: lowerChars (showValue v)) []
  let idx := (rawRows.take 15).findIdx? (fun cells =>
    let t := joined cells
    pyIn ("date".data) t &&
      (pyIn ("poids".data) t || pyIn ("kg".data) t || pyIn ("matière".data) t))
  idx.getD 0

/-! ## Mapping-sheet ingestion (`ETLProcessor.__init__` / `_load_etl_mappings`) -/

/-- `Paramètres` ingestion: rows with both `Category` and `Name` present
populate `dechet_to_agrege`, keyed by the lower-cased trimmed name. -/
def buildDechetToAgrege (paramRows : List Row) : List (List Char × List Char) :=
  paramRows.foldl (fun acc r =>
    let cat := rowGetD r ("Category".data)
    let nm := rowGetD r ("Name".data)
    if !pyIsNa cat && !pyIsNa nm then
      dictInsert (lowerChars (trimChars (showValue nm))) (trimChars (showValue cat)) acc
    else acc) []

/-- A `traitement_lookup` entry: the raw `Code traitement retraité` and
`Traitement` cells (`none` models the Python `None` a missing column
yields — distinct from a NaN cell, which is `some .na`). -/
abbrev TraitEntry := Option Value × Option Value

/-- `Traitement générique` ingestion: rows whose concatenation-key cell
stringifies and trims to a non-empty key. -/
def buildTraitementLookup (traitRows : List Row) : List (List Char × TraitEntry) :=
  traitRows.foldl (fun acc r =>
    let key := trimChars (showValue ((rowGet r
      ("Concatener déchet & code de traitement prestataire".data)).getD (Value.str [])))
    if !key.isEmpty then
      dictInsert key
        (rowGet r ("Code traitement retraité".data), rowGet r ("Traitement".data)) acc
    else acc) []

/-- Does a mapping-sheet row's `Nom prestataire (FORMULE)` cell match the
provider pattern (`.str.contains(pattern, case=False, na=False)`:
non-text cells never match)? -/
def prestMatches (pat : List (List Char)) (r : Row) : Bool :=
  match rowGet r ("Nom prestataire (FORMULE)".data) with
  | some (.str s) => patSearch pat (lowerChars s)
  | _ => false

/-- `ETLProcessor._get_dechet_mapping`: the provider's waste lookup and
its default (the last matching row with an absent provider-side name). -/
def getDechetMapping (pat : List (List Char)) (dechetRows : List Row) :
    List (List Char × Value) × Option Value :=
  (dechetRows.filter (prestMatches pat)).foldl (fun acc r =>
    let prest := rowGetD r ("Nom des déchets prestataire".data)
    let urbyn := rowGetD r ("Nom des déchets Urbyn".data)
    if pyIsNa prest then
      if !pyIsNa urbyn then (acc.1, some urbyn) else acc
    else if !pyIsNa urbyn then
      (dictInsert (lowerChars (trimChars (showValue prest))) urbyn acc.1, acc.2)
    else acc) ([], none)

/-- One site-lookup record. -/
structure SiteInfo where
  nomSite : Value
  codePrestation : Value
  prestataire : Value
deriving DecidableEq, Repr

/-- `ETLProcessor._get_site_mapping`. -/
def getSiteMapping (pat : List (List Char)) (siteRows : List Row) :
    List (List Char × SiteInfo) :=
  (siteRows.filter (prestMatches pat)).foldl (fun acc r =>
    let sitePrest := rowGetD r ("Nom site prestataire".data)
    if !pyIsNa sitePrest then
      dictInsert (lowerChars (trimChars (showValue sitePrest)))
        { nomSite := rowGetD r ("Nom site Urbyn".data),
          codePrestation := rowGetD r ("Code de la prestation".data),
          prestataire := rowGetD r ("Nom prestataire (FORMULE)".data) } acc
    else acc) []

/-! ## Mapping-resolution helpers -/

/-- `ETLProcessor._map_dechet`. -/
def mapDechet (dechetPrest : Value) (lookup : List (List Char × Value))
    (default : Option Value) : Option Value :=
  if pyIsNa dechetPrest || (trimChars (showValue dechetPrest)).isEmpty then default
  else
    match assocFind (lowerChars (trimChars (showValue dechetPrest))) lookup with
    | some v => some v
    | none => default

/-- `ETLProcessor._map_agrege` (`none` models the Python `None`). -/
def mapAgrege (dechetFin : Option Value)
    (dechetToAgrege : List (List Char × List Char)) : Option (List Char) :=
  match dechetFin with
  | none => none
  | some v =>
    if pyIsNa v then none
    else assocFind (lowerChars (trimChars (showValue v))) dechetToAgrege

/-- `ETLProcessor._map_traitement`: with a non-blank code, the
concatenation key `category + trimmed code` is preferred; failing that
(or with a blank/absent code) the category-only key; else two absent
values. -/
def mapTraitement (lookup : List (List Char × TraitEntry))
    (agrege : Option (List Char)) (code : Value) : Option Value × Option Value :=
  match agrege with
  | none => (none, none)
  | some ag =>
    let concatHit : Option TraitEntry :=
      if !pyIsNa code && !(trimChars (showValue code)).isEmpty then
        assocFind (ag ++ trimChars (showValue code)) lookup
      else none
    match concatHit with
    | some e => (e.1, e.2)
    | none =>
      match assocFind ag lookup with
      | some e => (e.1, e.2)
      | none => (none, none)

/-- `ETLProcessor._map_site`: exact lower-cased trimmed key lookup, then
the first entry in iteration order whose key contains the key or is
contained in it. -/
def mapSite (siteName : Value) (siteLookup : List (List Char × SiteInfo)) :
    Option SiteInfo :=
  if pyIsNa siteName then none
  else
    let key := lowerChars (trimChars (showValue siteName))
    match assocFind key siteLookup with
    | some v => some v
    | none =>
      (siteLookup.find? (fun p => pyIn key p.1 || pyIn p.1 key)).map (fun p => p.2)

/-- `ETLProcessor._extract_code_site`: the part of the site name before
the literal `" - "`, absent when the separator does not occur. -/
def beforeSep (sep : List Char) : List Char → List Char
  | [] => []
  | c :: t => if sep.isPrefixOf (c :: t) then [] else c :: beforeSep sep t

def extractCodeSite (nomSite : Value) : Value :=
  if pyIsNa nomSite then Value.na
  else
    let s := showValue nomSite
    if pyIn (" - ".data) s then Value.str (beforeSep (" - ".data) s) else Value.na

/-! ## Row processing (`ETLProcessor._process_row`) -/

/-- The discovered-column map for the provider's canonical keys: absent
key or no match both read as no column (`cols.get(key)` then Python
`or`). -/
abbrev ColsMap := List (List Char × Option (List Char))

/-- Build the column map (`process`, source lines 403-406). -/
def detectColumns (config : PrestConfig) (cols : List (List Char)) : ColsMap :=
  config.columns.map (fun p => (p.1, findColumn cols p.2))

def getCol (cols : ColsMap) (key : List Char) : Option (List Char) :=
  (assocFind key cols).getD none

def siteColOf (cols : ColsMap) : Option (List Char) :=
  orOpt (getCol cols ("site".data))
    (orOpt (getCol cols ("site_name".data)) (getCol cols ("site_id".data)))

def wasteColOf (cols : ColsMap) : Option (List Char) :=
  orOpt (getCol cols ("waste".data)) (getCol cols ("waste_name".data))

def codeColOf (cols : ColsMap) : Option (List Char) :=
  orOpt (getCol cols ("treatment_code".data)) (getCol cols ("treatment_code_done".data))

def exutColOf (cols : ColsMap) : Option (List Char) :=
  orOpt (getCol cols ("exutoire".data)) (getCol cols ("destination".data))

def qtyColOf (cols : ColsMap) : Option (List Char) :=
  orOpt (getCol cols ("quantity".data)) (getCol cols ("container_qty".data))

/-- The sentinel site record substituted when no mapping is found. -/
def sentinelSite : SiteInfo :=
  { nomSite := Value.str ("Site inconnu".data), codePrestation := Value.na,
    prestataire := Value.na }

/-- The warning recorded for an unmapped site value. -/
def noSiteWarning (siteName : Value) : List Char :=
  ("No site mapping for: '").data ++ showValue siteName ++ ("'").data

/-- Weight conversion (source lines 480-486): truthy weights go through
`float` (which may raise) and are scaled by 1000 for a `tonnes`
provider; falsy weights normalise to 0. -/
def convertWeight (config : PrestConfig) (w : Value) : Except (List Char) ℚ :=
  if vTruthy w then
    (toFloat w).map (fun q => if config.weightUnit = "tonnes".data then q * 1000 else q)
  else .ok 0

/-- `volume_contenant * quantity` where the volume is an `int` and the
quantity a cell: Python multiplies numbers and replicates text. -/
def volTimesQty (v : ℕ) (q : Value) : Value :=
  match q with
  | .num r => .num (v * r)
  | .str s => .str (List.flatten (List.replicate v s))
  | .na => .na

/-- The Paprec container block (source lines 502-507): for a truthy
container cell of the `Paprec` provider, look up its lower-cased trimmed
text in the two constant tables (a non-text cell has no `.lower()` and
raises). -/
def paprecContainer (prestataire : List Char) (container : Value) :
    Except (List Char) (Option ℕ × Option (List Char)) :=
  if vTruthy container && prestataire = "Paprec".data then
    match container with
    | .str s =>
      let cl := trimChars (lowerChars s)
      .ok (assocFind cl PAPREC_CONTAINER_VOLUMES,
           some ((assocFind cl PAPREC_CONTAINER_TYPES).getD ("Equipement inconnu".data)))
    | _ => .error ("object has no attribute 'lower'").data
  else .ok (none, none)

/-- The fixed output record (source lines 512-558). -/
def mkOutputRow (prestataire : List Char) (siteInfo : SiteInfo)
    (dechetFin : Option Value) (dechetsAgrege : Option (List Char))
    (dechetsPrest : Value) (codePrest : Value) (codeFinal : Value)
    (traitement : Option Value) (weightKg : ℚ) (dateVal bsd wasteCode
    transporter exutoire quantity : Value) (volumeContenant : Option ℕ)
    (typeContenant : Option (List Char)) (prestataireName : Value) : Row :=
  [("Libellé".data, Value.na),
   ("Groupe".data, Value.str ("Capgemini".data)),
   ("Code site".data, extractCodeSite siteInfo.nomSite),
   ("Nom du site".data, siteInfo.nomSite),
   ("Nom du client".data, Value.str ("CAPGEMINI TECHNOLOGY SERVICES".data)),
   ("Type de porteur".data, Value.str ("FM".data)),
   ("Commentaire mouvement".data, Value.na),
   ("Code de la prestation".data, siteInfo.codePrestation),
   ("Prestataire".data, prestataireName),
   ("Groupe de Prestataire".data, Value.str prestataire),
   ("Type de prestataire".data, Value.str ("Privé".data)),
   ("Périodicité".data, Value.str ("Jour".data)),
   ("Date début registre".data, dateVal),
   ("Date fin registre".data, dateVal),
   ("Code déchet prestataire".data, wasteCode),
   ("Déchet fin".data, dechetFin.getD Value.na),
   ("Déchets agrégé".data, (dechetsAgrege.map Value.str).getD Value.na),
   ("Déchets prestataire".data,
     if vTruthy dechetsPrest then dechetsPrest else dechetFin.getD Value.na),
   ("Masse totale (kg)".data, Value.num weightKg),
   ("Nombre de contenants".data, quantity),
   ("Volume contenant (L)".data, (volumeContenant.map (fun v => Value.num v)).getD Value.na),
   ("Type de contenant".data, (typeContenant.map Value.str).getD Value.na),
   ("Volume total (L)".data,
     match volumeContenant with
     | some v => if decide (v ≠ 0) && vTruthy quantity then volTimesQty v quantity else Value.na
     | none => Value.na),
   ("Nature de quantités collectées".data, Value.str ("Masse".data)),
   ("Qualité quantités".data, Value.str ("Document prestataire".data)),
   ("Précision estimations des quantités".data, Value.na),
   ("Traitement".data, traitement.getD Value.na),
   ("Traitement prestataire".data, Value.na),
   ("Code traitement".data, codeFinal),
   ("Code traitement prestataire".data, codePrest),
   ("Qualité du Traitement".data, Value.str ("Document prestataire".data)),
   ("N° de BSD/BSDD".data, bsd),
   ("N° de recépissé".data, Value.na),
   ("Transporteur".data, transporter),
   ("Transporteur prestataire".data, transporter),
   ("Plaque d'immatriculation".data, Value.na),
   ("Exutoire intermédiaire".data, Value.na),
   ("Exutoire intermédiaire prestataire".data, Value.na),
   ("Qualité de l'exutoire intermédiaire".data, Value.na),
   ("Exutoire final".data, exutoire),
   ("Exutoire final prestataire".data, exutoire),
   ("Qualité de l'exutoire final".data, Value.str ("Document prestataire".data)),
   ("Période de clôture".data, Value.na),
   ("Statut du mouvement".data, Value.str ("Réalisée".data)),
   ("Commentaire".data, Value.na)]

/-- `ETLProcessor._process_row`.  The result is the produced record (or
no record for a discarded row) together with the warnings the row
appended; an uncaught fault carries its message and the row's warnings
appended so far. -/
def processRow (prestataire : List Char) (config : PrestConfig) (cols : ColsMap)
    (dechetLookup : List (List Char × Value)) (defaultDechet : Option Value)
    (siteLookup : List (List Char × SiteInfo))
    (dechetToAgrege : List (List Char × List Char))
    (traitLookup : List (List Char × TraitEntry)) (row : Row) :
    Except (List Char × List (List Char)) (Option Row × List (List Char)) :=
  let siteName := safeGet row (siteColOf cols) (Value.str [])
  let (siteInfo, ws) :=
    match mapSite siteName siteLookup with
    | some i => (i, ([] : List (List Char)))
    | none => (sentinelSite, [noSiteWarning siteName])
  let dechetsPrest := safeGet row (wasteColOf cols) (Value.str [])
  let dechetFin := mapDechet dechetsPrest dechetLookup defaultDechet
  let dechetsAgrege := mapAgrege dechetFin dechetToAgrege
  let codePrest := safeGet row (codeColOf cols) (Value.str [])
  let ct := mapTraitement traitLookup dechetsAgrege codePrest
  let codeFinal := ct.1.getD codePrest
  let weight0 := safeGet row (getCol cols ("weight".data)) (Value.num 0)
  if config.bsddFormat && (pyIsNa weight0 || vEqZero weight0) then
    .ok (none, ws)
  else
    match convertWeight config weight0 with
    | .error m => .error (m, ws)
    | .ok weightKg =>
      let dateVal := safeGet row (getCol cols ("date".data)) Value.na
      let bsd := safeGet row (getCol cols ("bsd".data)) Value.na
      let wasteCode := safeGet row (getCol cols ("waste_code".data)) Value.na
      let transporter := safeGet row (getCol cols ("transporter".data)) Value.na
      let exutoire := safeGet row (exutColOf cols) Value.na
      let container := safeGet row (getCol cols ("container".data)) (Value.str [])
      let quantity := safeGet row (qtyColOf cols) (Value.num 1)
      match paprecContainer prestataire container with
      | .error m => .error (m, ws)
      | .ok (volumeContenant, typeContenant) =>
        let prestataireName :=
          pyOr siteInfo.prestataire (pyOr transporter (Value.str prestataire))
        .ok (some (mkOutputRow prestataire siteInfo dechetFin dechetsAgrege
          dechetsPrest codePrest codeFinal ct.2 weightKg dateVal bsd wasteCode
          transporter exutoire quantity volumeContenant typeContenant
          prestataireName), ws)

/-! ## Orchestration (`ETLProcessor.process`) -/

/-- The engine state built at construction: the template's header row and
the four ingested mapping tables (the waste and site sheets are kept raw,
filtered per invocation). -/
structure ETLState where
  templateCols : List (List Char)
  dechetRows : List Row
  dechetToAgrege : List (List Char × List Char)
  traitementLookup : List (List Char × TraitEntry)
  siteRows : List Row
deriving DecidableEq, Repr

/-- An uploaded raw file, as the engine's reader sees it: either a name
with the tabular content its format-specific parse yields, or a file
whose parse raises (bad bytes, missing worksheet, …). -/
inductive RawFile where
  | parsed : List Char → DataFrame → RawFile
  | unreadable : List Char → List Char → RawFile
deriving DecidableEq, Repr

def RawFile.name : RawFile → List Char
  | .parsed n _ => n
  | .unreadable n _ => n

/-- `ETLProcessor._read_file` at the process boundary: the parsed frame,
or the parse's fault. -/
def readFile : RawFile → Except (List Char) DataFrame
  | .parsed _ df => .ok df
  | .unreadable _ m => .error m

/-- The read loop of `process` (source lines 394-398): read each file and
record its provenance column, stopping at the first fault. -/
def readAll : List RawFile → Except (List Char) (List DataFrame)
  | [] => .ok []
  | f :: fs =>
    match readFile f with
    | .error m => .error m
    | .ok df =>
      match readAll fs with
      | .error m => .error m
      | .ok ds => .ok (setCol ("_source_file".data) (Value.str f.name) df :: ds)

/-- `pd.concat(dfs) if len(dfs) > 1 else dfs[0]`: an empty upload list
raises `IndexError`. -/
def combineFrames : List DataFrame → Except (List Char) DataFrame
  | [] => .error ("list index out of range").data
  | [d] => .ok d
  | ds => .ok (concatDFs ds)

/-- The row loop of `process` (source lines 409-418), threading the
warning log: produced records are collected, discarded rows counted, and
a fault carries the warnings appended up to it. -/
def processRows (prestataire : List Char) (config : PrestConfig) (cols : ColsMap)
    (dechetLookup : List (List Char × Value)) (defaultDechet : Option Value)
    (siteLookup : List (List Char × SiteInfo))
    (dechetToAgrege : List (List Char × List Char))
    (traitLookup : List (List Char × TraitEntry)) :
    List Row → Except (List Char × List (List Char)) (List Row × ℕ × List (List Char))
  | [] => .ok ([], 0, [])
  | r :: rs =>
    match processRow prestataire config cols dechetLookup defaultDechet siteLookup
        dechetToAgrege traitLookup r with
    | .error (m, ws) => .error (m, ws)
    | .ok (res, ws) =>
      match processRows prestataire config cols dechetLookup defaultDechet siteLookup
          dechetToAgrege traitLookup rs with
      | .error (m, wsRest) => .error (m, ws ++ wsRest)
      | .ok (outs, skipped, wsRest) =>
        .ok ((match res with | some o => [o] | none => []) ++ outs,
             (match res with | some _ => 0 | none => 1) + skipped, ws ++ wsRest)

/-- `pd.DataFrame(list_of_records)`: columns are the record keys in order
of first appearance (no columns at all for an empty list). -/
def frameOfRecords (records : List Row) : DataFrame :=
  { cols := records.foldl (fun acc r =>
      acc ++ (r.map (fun p => p.1)).filter (fun c => !acc.contains c)) [],
    rows := records }

/-- Template alignment (source lines 424-427): add each template column
absent from the produced frame as an all-missing column, then restrict
and reorder to exactly the template's column list. -/
def alignToTemplate (templateCols : List (List Char)) (df : DataFrame) : DataFrame :=
  let filled := templateCols.foldl (fun d c =>
    if d.cols.contains c then d else setCol c Value.na d) df
  { cols := templateCols,
    rows := filled.rows.map (fun r => templateCols.map (fun c => (c, rowGetD r c))) }

/-- The structured result `process` returns. -/
structure ProcResult where
  success : Bool
  error : Option (List Char)
  data : Option DataFrame
  rowsProcessed : ℕ
  rowsSkipped : ℕ
  warnings : List (List Char)
deriving DecidableEq, Repr

/-- `config.get("pattern", prestataire.lower())`: the registered pattern,
or the lower-cased provider name itself for an unregistered one. -/
def patOf (prestataire : List Char) : List (List Char) :=
  match assocFind prestataire PRESTATAIRE_CONFIG with
  | some c => c.pattern
  | none => [lowerChars prestataire]

/-- The body of `process` guarded by its `try`: everything from pattern
resolution to output assembly, with a fault carrying its message and the
warnings accumulated when it escaped. -/
def processBody (st : ETLState) (files : List RawFile) (prestataire : List Char) :
    Except (List Char × List (List Char)) (DataFrame × ℕ × List (List Char)) :=
  let config := (assocFind prestataire PRESTATAIRE_CONFIG).getD emptyConfig
  let pat := patOf prestataire
  let dl := getDechetMapping pat st.dechetRows
  let siteLookup := getSiteMapping pat st.siteRows
  match readAll files with
  | .error m => .error (m, [])
  | .ok dfs =>
    match combineFrames dfs with
    | .error m => .error (m, [])
    | .ok dfInput =>
      let cols := detectColumns config dfInput.cols
      match processRows prestataire config cols dl.1 dl.2 siteLookup
          st.dechetToAgrege st.traitementLookup dfInput.rows with
      | .error (m, ws) => .error (m, ws)
      | .ok (outs, skipped, ws) =>
        .ok (alignToTemplate st.templateCols (frameOfRecords outs), skipped, ws)

/-- `ETLProcessor.process`.  `prevWarnings` is the warning log left by an
earlier invocation on the same engine; the log is reset on entry, so the
result never depends on it. -/
def process (_prevWarnings : List (List Char)) (st : ETLState)
    (files : List RawFile) (prestataire : List Char) : ProcResult :=
  match processBody st files prestataire with
  | .ok (df, skipped, ws) =>
    { success := true, error := none, data := some df,
      rowsProcessed := df.rows.length, rowsSkipped := skipped, warnings := ws }
  | .error (m, ws) =>
    { success := false, error := some m, data := none,
      rowsProcessed := 0, rowsSkipped := 0, warnings := ws }

/-- A rational literal in lowest terms (so that concrete runs of the
model reduce inside the kernel). -/
def rq (n : ℤ) (d : ℕ) (h1 : d ≠ 0 := by norm_num)
    (h2 : n.natAbs.Coprime d := by norm_num) : ℚ :=
  Rat.mk' n d h1 h2

/-- The fixed key list of the record `_process_row` assembles, in source
order. -/
def OUTPUT_KEYS : List (List Char) :=
  ["Libellé".data, "Groupe".data, "Code site".data, "Nom du site".data,
   "Nom du client".data, "Type de porteur".data, "Commentaire mouvement".data,
   "Code de la prestation".data, "Prestataire".data, "Groupe de Prestataire".data,
   "Type de prestataire".data, "Périodicité".data, "Date début registre".data,
   "Date fin registre".data, "Code déchet prestataire".data, "Déchet fin".data,
   "Déchets agrégé".data, "Déchets prestataire".data, "Masse totale (kg)".data,
   "Nombre de contenants".data, "Volume contenant (L)".data,
   "Type de contenant".data, "Volume total (L)".data,
   "Nature de quantités collectées".data, "Qualité quantités".data,
   "Précision estimations des quantités".data, "Traitement".data,
   "Traitement prestataire".data, "Code traitement".data,
   "Code traitement prestataire".data, "Qualité du Traitement".data,
   "N° de BSD/BSDD".data, "N° de recépissé".data, "Transporteur".data,
   "Transporteur prestataire".data, "Plaque d'immatriculation".data,
   "Exutoire intermédiaire".data, "Exutoire intermédiaire prestataire".data,
   "Qualité de l'exutoire intermédiaire".data, "Exutoire final".data,
   "Exutoire final prestataire".data, "Qualité de l'exutoire final".data,
   "Période de clôture".data, "Statut du mouvement".data, "Commentaire".data]

/-! ## Concrete fixtures used by claim instances and witnesses -/

/-- An engine state whose template has the single column
`Masse totale (kg)` and empty mapping tables. -/
def minState : ETLState :=
  { templateCols := [("Masse totale (kg)".data)], dechetRows := [],
    dechetToAgrege := [], traitementLookup := [], siteRows := [] }

/-- A parsed Screlec export with a zero-weight row and a 0.01-tonne
row. -/
def screlecTestFile : RawFile :=
  RawFile.parsed ("screlec_2024.xlsx".data)
    { cols := [("Quantité réceptionnée".data)],
      rows := [[(("Quantité réceptionnée".data), Value.num 0)],
               [(("Quantité réceptionnée".data), Value.num (rq 1 100))]] }

/-- The discovered-column map of a Paprec export. -/
def paprecTestCols : ColsMap :=
  [("container".data, some ("Libellé matériel".data)),
   ("quantity".data, some ("Quantité".data)),
   ("weight".data, some ("Poids".data))]

/-- A Paprec row carrying a recognised container and an explicit zero
quantity. -/
def paprecZeroQtyRow : Row :=
  [(("Libellé matériel".data), Value.str ("Bac Roulant 660L".data)),
   (("Quantité".data), Value.num 0),
   (("Poids".data), Value.num 1)]

/-- The named field of the record a row-processing result produced. -/
def rowField (res : Except (List Char × List (List Char)) (Option Row × List (List Char)))
    (c : List Char) : Option Value :=
  match res with
  | .ok (some out, _) => rowGet out c
  | _ => none

/-- An engine state for a Veolia end-to-end run: a template whose
columns partly overlap the produced record and include one extra column
`ColX`. -/
def veoliaTestState : ETLState :=
  { templateCols := ["Nom du site".data, "Masse totale (kg)".data,
                     "Code traitement".data, "ColX".data],
    dechetRows := [[("Nom prestataire (FORMULE)".data, Value.str ("Veolia".data)),
                    ("Nom des déchets prestataire".data, Value.str ("Papier".data)),
                    ("Nom des déchets Urbyn".data, Value.str ("Papier/Carton".data))]],
    dechetToAgrege := [("papier/carton".data, "Recyclable".data)],
    traitementLookup :=
      [("RecyclableR3".data,
        (some (Value.str ("R3F".data)), some (Value.str ("Recyclage matière".data)))),
       ("Recyclable".data,
        (some (Value.str ("R12".data)), some (Value.str ("Valorisation".data))))],
    siteRows := [[("Nom prestataire (FORMULE)".data, Value.str ("Veolia".data)),
                  ("Nom site prestataire".data, Value.str ("Paris".data)),
                  ("Nom site Urbyn".data, Value.str ("PAR01 - Paris HQ".data)),
                  ("Code de la prestation".data, Value.str ("CP1".data))]] }

/-- A parsed one-row Veolia export. -/
def veoliaTestFile : RawFile :=
  RawFile.parsed ("veolia_avril.xlsx".data)
    { cols := ["Date de réalisation".data, "Lieu de collecte".data, "Matière".data,
               "Poids (kg)".data, "Code de traitement".data],
      rows := [[("Date de réalisation".data, Value.str ("2024-04-01".data)),
                ("Lieu de collecte".data, Value.str ("Paris".data)),
                ("Matière".data, Value.str ("Papier".data)),
                ("Poids (kg)".data, Value.num (rq 5 2)),
                ("Code de traitement".data, Value.str ("R3".data))]] }

/-- A parsed Veolia export whose second row carries a non-numeric weight
(`float` raises while processing it). -/
def veoliaFaultFile : RawFile :=
  RawFile.parsed ("veolia_mai.xlsx".data)
    { cols := ["Poids".data],
      rows := [[("Poids".data, Value.num 2)],
               [("Poids".data, Value.str ("abc".data))]] }

/-! ## Claim C8 — provider auto-detection -/

/-- C8: provider auto-detection lower-cases the filename and tests each
provider's pattern in registry order, returning the first match or a
not-found result: a filename containing `veolia` resolves to `Veolia`,
one containing `td-registre` to `Trackdechet`, one containing both to
the earlier registry entry, and one matching no pattern fails. -/
theorem C8_provider_autodetection :
    detectPrestataire ("Rapport_VEOLIA_2024.xlsx".data) = some ("Veolia".data) ∧
    detectPrestataire ("site_td-registre_export.csv".data) = some ("Trackdechet".data) ∧
    detectPrestataire ("veolia_td-registre.csv".data) = some ("Veolia".data) ∧
    detectPrestataire ("mystery_report.xlsx".data) = none ∧
    (∀ filename, detectPrestataire filename = none ↔
      ∀ p ∈ PRESTATAIRE_CONFIG, patSearch p.2.pattern (lowerChars filename) = false) := by
  refine ⟨by decide, by decide, by decide, by decide, fun filename => ?_⟩
  unfold detectPrestataire
  rw [Option.map_eq_none', List.find?_eq_none]
  constructor
  · intro h p hp
    simpa using h p hp
  · intro h p hp
    simp [h p hp]

theorem C8_provider_autodetection_witness :
    patSearch trackdechetConfig.pattern (lowerChars ("report_2024.xlsx".data)) = false :=
  (C8_provider_autodetection.2.2.2.2 ("report_2024.xlsx".data)).mp (by decide)
    ("Trackdechet".data, trackdechetConfig) (by decide)

/-! ## Claim C5 — site matching -/

/-- A numeric weight cell never makes the conversion raise. -/
lemma convertWeight_num_ok (config : PrestConfig) (q : ℚ) :
    convertWeight config (Value.num q) =
      .ok (if vTruthy (Value.num q) then
             (if config.weightUnit = "tonnes".data then q * 1000 else q)
           else 0) := by
  unfold convertWeight toFloat
  by_cases h : vTruthy (Value.num q) <;> simp [h, Except.map]

/-- C5: site matching tries the exact lower-cased trimmed key first, then
the first entry (iteration order) whose key contains or is contained in
the lookup key; a row with no match still produces an output record with
the sentinel site and exactly one warning. -/
theorem C5_site_matching :
    (∀ (v : Value) (lookup : List (List Char × SiteInfo)) (info : SiteInfo),
      pyIsNa v = false →
      assocFind (lowerChars (trimChars (showValue v))) lookup = some info →
      mapSite v lookup = some info) ∧
    (∀ (v : Value) (lookup : List (List Char × SiteInfo)) (p : List Char × SiteInfo),
      pyIsNa v = false →
      assocFind (lowerChars (trimChars (showValue v))) lookup = none →
      lookup.find? (fun e => pyIn (lowerChars (trimChars (showValue v))) e.1 ||
        pyIn e.1 (lowerChars (trimChars (showValue v)))) = some p →
      mapSite v lookup = some p.2) ∧
    mapSite (Value.str ("Site A Annex".data))
      [("site a".data, { nomSite := Value.str ("A".data), codePrestation := Value.na,
                         prestataire := Value.na })] =
      some { nomSite := Value.str ("A".data), codePrestation := Value.na,
             prestataire := Value.na } ∧
    (∀ (prest : List Char) (config : PrestConfig) (cols : ColsMap)
       (dl : List (List Char × Value)) (dd : Option Value)
       (sl : List (List Char × SiteInfo)) (d2a : List (List Char × List Char))
       (tl : List (List Char × TraitEntry)) (row : Row) (q : ℚ)
       (pc : Option ℕ × Option (List Char)),
      config.bsddFormat = false →
      mapSite (safeGet row (siteColOf cols) (Value.str [])) sl = none →
      safeGet row (getCol cols ("weight".data)) (Value.num 0) = Value.num q →
      paprecContainer prest (safeGet row (getCol cols ("container".data)) (Value.str [])) =
        .ok pc →
      ∃ out, processRow prest config cols dl dd sl d2a tl row =
          .ok (some out, [noSiteWarning (safeGet row (siteColOf cols) (Value.str []))]) ∧
        rowGet out ("Nom du site".data) = some (Value.str ("Site inconnu".data)) ∧
        rowGet out ("Code de la prestation".data) = some Value.na) := by
  refine ⟨?_, ?_, by decide, ?_⟩
  · intro v lookup info hna hfind
    unfold mapSite
    simp [hna, hfind]
  · intro v lookup p hna hnone hfind
    unfold mapSite
    simp [hna, hnone, hfind]
  · intro prest config cols dl dd sl d2a tl row q pc hb hsite hw hpc
    simp only [processRow, hsite, hw, hb, convertWeight_num_ok, hpc, Bool.false_and,
      Bool.false_eq_true, if_false]
    exact ⟨_, rfl, by simp [mkOutputRow, rowGet, assocFind, sentinelSite],
      by simp [mkOutputRow, rowGet, assocFind, sentinelSite]⟩

theorem C5_site_matching_witness :
    ∃ out, processRow ("Veolia".data) veoliaConfig
        [("site".data, some ("Site".data)), ("weight".data, some ("Poids".data))]
        [] none [] [] []
        [("Site".data, Value.str ("Nowhere".data)), ("Poids".data, Value.num 3)] =
      .ok (some out, [noSiteWarning (safeGet
        [("Site".data, Value.str ("Nowhere".data)), ("Poids".data, Value.num 3)]
        (siteColOf [("site".data, some ("Site".data)), ("weight".data, some ("Poids".data))])
        (Value.str []))]) ∧
      rowGet out ("Nom du site".data) = some (Value.str ("Site inconnu".data)) ∧
      rowGet out ("Code de la prestation".data) = some Value.na :=
  C5_site_matching.2.2.2 ("Veolia".data) veoliaConfig
    [("site".data, some ("Site".data)), ("weight".data, some ("Poids".data))]
    [] none [] [] []
    [("Site".data, Value.str ("Nowhere".data)), ("Poids".data, Value.num 3)]
    3 (none, none) rfl (by decide) (by decide) (by decide)

/-! ## Claim C6 — treatment resolution -/

/-- C6: treatment resolution prefers the concatenation key `category +
trimmed code` for a non-blank code, falls back to the category-only key
when the code is blank/absent or the concatenation key misses, and when
neither entry exists the output treatment code is the raw provider code
unchanged. -/
theorem C6_treatment_resolution :
    (∀ (lookup : List (List Char × TraitEntry)) (ag : List Char) (code : Value)
       (e : TraitEntry),
      pyIsNa code = false → (trimChars (showValue code)).isEmpty = false →
      assocFind (ag ++ trimChars (showValue code)) lookup = some e →
      mapTraitement lookup (some ag) code = (e.1, e.2)) ∧
    (∀ (lookup : List (List Char × TraitEntry)) (ag : List Char) (code : Value)
       (e : TraitEntry),
      assocFind (ag ++ trimChars (showValue code)) lookup = none →
      assocFind ag lookup = some e →
      mapTraitement lookup (some ag) code = (e.1, e.2)) ∧
    (∀ (lookup : List (List Char × TraitEntry)) (ag : List Char) (code : Value)
       (e : TraitEntry),
      pyIsNa code = true ∨ (trimChars (showValue code)).isEmpty = true →
      assocFind ag lookup = some e →
      mapTraitement lookup (some ag) code = (e.1, e.2)) ∧
    (∀ (prest : List Char) (config : PrestConfig) (cols : ColsMap)
       (dl : List (List Char × Value)) (dd : Option Value)
       (sl : List (List Char × SiteInfo)) (d2a : List (List Char × List Char))
       (tl : List (List Char × TraitEntry)) (row : Row) (q : ℚ)
       (pc : Option ℕ × Option (List Char)),
      mapTraitement tl
        (mapAgrege (mapDechet (safeGet row (wasteColOf cols) (Value.str [])) dl dd) d2a)
        (safeGet row (codeColOf cols) (Value.str [])) = (none, none) →
      config.bsddFormat = false →
      safeGet row (getCol cols ("weight".data)) (Value.num 0) = Value.num q →
      paprecContainer prest (safeGet row (getCol cols ("container".data)) (Value.str [])) =
        .ok pc →
      ∃ out ws, processRow prest config cols dl dd sl d2a tl row = .ok (some out, ws) ∧
        rowGet out ("Code traitement".data) =
          some (safeGet row (codeColOf cols) (Value.str [])) ∧
        rowGet out ("Traitement".data) = some Value.na) := by
  refine ⟨?_, ?_, ?_, ?_⟩
  · intro lookup ag code e hna hblank hfind
    unfold mapTraitement
    simp [hna, hblank, hfind]
  · intro lookup ag code e hnone hfind
    unfold mapTraitement
    by_cases h1 : pyIsNa code
    · simp [h1, hfind]
    · by_cases h2 : (trimChars (showValue code)).isEmpty
      · simp [h1, h2, hfind]
      · simp [h1, h2, hnone, hfind]
  · intro lookup ag code e hblank hfind
    unfold mapTraitement
    rcases hblank with h | h
    · simp [h, hfind]
    · simp [h, hfind]
  · intro prest config cols dl dd sl d2a tl row q pc hct hb hw hpc
    cases hms : mapSite (safeGet row (siteColOf cols) (Value.str [])) sl with
    | none =>
      simp only [processRow, hms, hct, hw, hb, convertWeight_num_ok, hpc, Bool.false_and,
        Bool.false_eq_true, if_false]
      exact ⟨_, _, rfl, by simp [mkOutputRow, rowGet, assocFind],
        by simp [mkOutputRow, rowGet, assocFind]⟩
    | some i =>
      simp only [processRow, hms, hct, hw, hb, convertWeight_num_ok, hpc, Bool.false_and,
        Bool.false_eq_true, if_false]
      exact ⟨_, _, rfl, by simp [mkOutputRow, rowGet, assocFind],
        by simp [mkOutputRow, rowGet, assocFind]⟩

theorem C6_treatment_resolution_witness :
    ∃ out ws, processRow ("Veolia".data) veoliaConfig
        [("treatment_code".data, some ("Code".data)), ("weight".data, some ("Poids".data))]
        [] none [] [] []
        [("Code".data, Value.str ("D10".data)), ("Poids".data, Value.num 3)] =
      .ok (some out, ws) ∧
      rowGet out ("Code traitement".data) =
        some (safeGet [("Code".data, Value.str ("D10".data)), ("Poids".data, Value.num 3)]
          (codeColOf [("treatment_code".data, some ("Code".data)),
            ("weight".data, some ("Poids".data))]) (Value.str [])) ∧
      rowGet out ("Traitement".data) = some Value.na :=
  C6_treatment_resolution.2.2.2 ("Veolia".data) veoliaConfig
    [("treatment_code".data, some ("Code".data)), ("weight".data, some ("Poids".data))]
    [] none [] [] []
    [("Code".data, Value.str ("D10".data)), ("Poids".data, Value.num 3)]
    3 (none, none) (by decide) rfl (by decide) (by decide)

/-! ## Claim C10 — blank site values -/

/-- The empty string is a substring of every string. -/
lemma pyIn_nil (hay : List Char) : pyIn [] hay = true := by
  cases hay <;> simp [pyIn, List.isPrefixOf]

/-- An exact lookup of the empty key misses when every key is non-empty. -/
lemma assocFind_nil_of_keys_ne (l : List (List Char × α))
    (h : ∀ p ∈ l, p.1 ≠ ([] : List Char)) : assocFind [] l = none := by
  induction l with
  | nil => rfl
  | cons p t ih =>
    unfold assocFind
    simp only [if_neg (h p (List.mem_cons_self p t))]
    exact ih (fun q hq => h q (List.mem_cons_of_mem p hq))

/-- A non-empty site lookup always resolves the empty key. -/
lemma mapSite_empty_isSome (lookup : List (List Char × SiteInfo))
    (hne : lookup ≠ []) : (mapSite (Value.str []) lookup).isSome = true := by
  have hkey : lowerChars (trimChars (showValue (Value.str []))) = [] := rfl
  match lookup, hne with
  | e :: rest, _ =>
    unfold mapSite
    simp only [pyIsNa, Bool.false_eq_true, if_false, hkey]
    cases haf : assocFind [] (e :: rest) with
    | some v => simp
    | none => simp [List.find?_cons, pyIn_nil]

/-- C10 (implicit): an absent/blank site value is looked up as the empty
string, which substring-matches every key, so a non-empty site lookup
resolves it to its first entry in iteration order and no warning is
recorded. -/
theorem C10_empty_site_value :
    (∀ (e : List Char × SiteInfo) (rest : List (List Char × SiteInfo)),
      (∀ p ∈ e :: rest, p.1 ≠ ([] : List Char)) →
      mapSite (Value.str []) (e :: rest) = some e.2) ∧
    (∀ (lookup : List (List Char × SiteInfo)),
      lookup ≠ [] → (mapSite (Value.str []) lookup).isSome = true) ∧
    (∀ (prest : List Char) (config : PrestConfig) (cols : ColsMap)
       (dl : List (List Char × Value)) (dd : Option Value)
       (sl : List (List Char × SiteInfo)) (d2a : List (List Char × List Char))
       (tl : List (List Char × TraitEntry)) (row : Row) (q : ℚ)
       (pc : Option ℕ × Option (List Char)),
      safeGet row (siteColOf cols) (Value.str []) = Value.str [] →
      sl ≠ [] →
      safeGet row (getCol cols ("weight".data)) (Value.num 0) = Value.num q →
      paprecContainer prest (safeGet row (getCol cols ("container".data)) (Value.str [])) =
        .ok pc →
      ∃ res, processRow prest config cols dl dd sl d2a tl row = .ok (res, [])) := by
  have hkey : lowerChars (trimChars (showValue (Value.str []))) = [] := rfl
  refine ⟨?_, ?_, ?_⟩
  · intro e rest h
    unfold mapSite
    simp only [pyIsNa, Bool.false_eq_true, if_false, hkey,
      assocFind_nil_of_keys_ne _ h, List.find?_cons, pyIn_nil, Bool.true_or]
    rfl
  · exact mapSite_empty_isSome
  · intro prest config cols dl dd sl d2a tl row q pc hsv hne hw hpc
    obtain ⟨i, hms⟩ : ∃ i, mapSite (Value.str []) sl = some i := by
      exact Option.isSome_iff_exists.mp (mapSite_empty_isSome sl hne)
    cases hskip : config.bsddFormat && (pyIsNa (Value.num q) || vEqZero (Value.num q)) with
    | true =>
      simp only [processRow, hsv, hms, hw, hskip, if_true]
      exact ⟨none, rfl⟩
    | false =>
      simp only [processRow, hsv, hms, hw, hskip, convertWeight_num_ok, hpc,
        Bool.false_eq_true, if_false]
      exact ⟨_, rfl⟩

theorem C10_empty_site_value_witness :
    ∃ res, processRow ("Veolia".data) veoliaConfig
        [("weight".data, some ("Poids".data))] [] none
        [("paris".data, { nomSite := Value.str ("P".data), codePrestation := Value.na,
                          prestataire := Value.na })] [] []
        [("Poids".data, Value.num 2)] = .ok (res, []) :=
  C10_empty_site_value.2.2 ("Veolia".data) veoliaConfig
    [("weight".data, some ("Poids".data))] [] none
    [("paris".data, { nomSite := Value.str ("P".data), codePrestation := Value.na,
                      prestataire := Value.na })] [] []
    [("Poids".data, Value.num 2)] 2 (none, none)
    (by decide) (by decide) (by decide) (by decide)

/-! ## Claim C3 — strict-movement discard -/

/-- An absent or zero weight converts to 0 without raising. -/
lemma convertWeight_zero (config : PrestConfig) (w : Value)
    (h : (pyIsNa w || vEqZero w) = true) : convertWeight config w = .ok 0 := by
  cases w with
  | na => rfl
  | str s => simp [pyIsNa, vEqZero] at h
  | num q =>
    simp only [pyIsNa, vEqZero, Bool.false_or, decide_eq_true_eq] at h
    simp [convertWeight, vTruthy, h]

/-- C3: a strict-movement (`bsdd_format`) provider discards a row whose
weight is absent or exactly 0 (counting it as skipped) and keeps any
nonzero-weight row; a provider without the flag keeps absent/zero-weight
rows with the weight normalised to 0. -/
theorem C3_strict_movement_discard :
    (∀ (prest : List Char) (config : PrestConfig) (cols : ColsMap)
       (dl : List (List Char × Value)) (dd : Option Value)
       (sl : List (List Char × SiteInfo)) (d2a : List (List Char × List Char))
       (tl : List (List Char × TraitEntry)) (row : Row),
      config.bsddFormat = true →
      (pyIsNa (safeGet row (getCol cols ("weight".data)) (Value.num 0)) ||
        vEqZero (safeGet row (getCol cols ("weight".data)) (Value.num 0))) = true →
      ∃ ws, processRow prest config cols dl dd sl d2a tl row = .ok (none, ws)) ∧
    (∀ (prest : List Char) (config : PrestConfig) (cols : ColsMap)
       (dl : List (List Char × Value)) (dd : Option Value)
       (sl : List (List Char × SiteInfo)) (d2a : List (List Char × List Char))
       (tl : List (List Char × TraitEntry)) (row : Row) (q : ℚ)
       (pc : Option ℕ × Option (List Char)),
      config.bsddFormat = true →
      safeGet row (getCol cols ("weight".data)) (Value.num 0) = Value.num q →
      q ≠ 0 →
      paprecContainer prest (safeGet row (getCol cols ("container".data)) (Value.str [])) =
        .ok pc →
      ∃ out ws, processRow prest config cols dl dd sl d2a tl row = .ok (some out, ws)) ∧
    (∀ (prest : List Char) (config : PrestConfig) (cols : ColsMap)
       (dl : List (List Char × Value)) (dd : Option Value)
       (sl : List (List Char × SiteInfo)) (d2a : List (List Char × List Char))
       (tl : List (List Char × TraitEntry)) (row : Row)
       (pc : Option ℕ × Option (List Char)),
      config.bsddFormat = false →
      (pyIsNa (safeGet row (getCol cols ("weight".data)) (Value.num 0)) ||
        vEqZero (safeGet row (getCol cols ("weight".data)) (Value.num 0))) = true →
      paprecContainer prest (safeGet row (getCol cols ("container".data)) (Value.str [])) =
        .ok pc →
      ∃ out ws, processRow prest config cols dl dd sl d2a tl row = .ok (some out, ws) ∧
        rowGet out ("Masse totale (kg)".data) = some (Value.num 0)) ∧
    (process [] minState [screlecTestFile] ("Screlec".data)).success = true ∧
    (process [] minState [screlecTestFile] ("Screlec".data)).rowsProcessed = 1 ∧
    (process [] minState [screlecTestFile] ("Screlec".data)).rowsSkipped = 1 := by
  refine ⟨?_, ?_, ?_, rfl, rfl, rfl⟩
  · intro prest config cols dl dd sl d2a tl row hb hw
    cases hms : mapSite (safeGet row (siteColOf cols) (Value.str [])) sl <;>
      · simp only [processRow, hms, hb, hw, Bool.true_and, if_true]
        exact ⟨_, rfl⟩
  · intro prest config cols dl dd sl d2a tl row q pc hb hw hq hpc
    have hskip : (config.bsddFormat && (pyIsNa (Value.num q) || vEqZero (Value.num q))) =
        false := by
      simp [pyIsNa, vEqZero, hq]
    cases hms : mapSite (safeGet row (siteColOf cols) (Value.str [])) sl <;>
      · simp only [processRow, hms, hskip, hw, convertWeight_num_ok, hpc,
          Bool.false_eq_true, if_false]
        exact ⟨_, _, rfl⟩
  · intro prest config cols dl dd sl d2a tl row pc hb hw hpc
    have hskip : (config.bsddFormat &&
        (pyIsNa (safeGet row (getCol cols ("weight".data)) (Value.num 0)) ||
          vEqZero (safeGet row (getCol cols ("weight".data)) (Value.num 0)))) = false := by
      simp [hb]
    cases hms : mapSite (safeGet row (siteColOf cols) (Value.str [])) sl <;>
      · simp only [processRow, hms, hskip, convertWeight_zero _ _ hw, hpc,
          Bool.false_eq_true, if_false]
        exact ⟨_, _, rfl, by simp [mkOutputRow, rowGet, assocFind]⟩

theorem C3_strict_movement_discard_witness :
    ∃ ws, processRow ("Screlec".data) screlecConfig
        [("weight".data, some ("Quantité réceptionnée".data))] [] none [] [] []
        [(("Quantité réceptionnée".data), Value.num 0)] = .ok (none, ws) :=
  C3_strict_movement_discard.1 ("Screlec".data) screlecConfig
    [("weight".data, some ("Quantité réceptionnée".data))] [] none [] [] []
    [(("Quantité réceptionnée".data), Value.num 0)] rfl (by decide)

/-! ## Claim C4 — weight unit normalisation -/

/-- C4: a processed row with a present numeric weight writes
`Masse totale (kg)` as the weight times 1000 when the provider's unit is
`tonnes` and as the weight unchanged otherwise (`kg`). -/
theorem C4_weight_unit_normalization :
    ∀ (prest : List Char) (config : PrestConfig) (cols : ColsMap)
      (dl : List (List Char × Value)) (dd : Option Value)
      (sl : List (List Char × SiteInfo)) (d2a : List (List Char × List Char))
      (tl : List (List Char × TraitEntry)) (row : Row) (q : ℚ)
      (pc : Option ℕ × Option (List Char)),
      config.bsddFormat = false ∨ q ≠ 0 →
      safeGet row (getCol cols ("weight".data)) (Value.num 0) = Value.num q →
      paprecContainer prest (safeGet row (getCol cols ("container".data)) (Value.str [])) =
        .ok pc →
      ∃ out ws, processRow prest config cols dl dd sl d2a tl row = .ok (some out, ws) ∧
        rowGet out ("Masse totale (kg)".data) =
          some (Value.num (if config.weightUnit = "tonnes".data then q * 1000 else q)) := by
  intro prest config cols dl dd sl d2a tl row q pc hor hw hpc
  have hskip : (config.bsddFormat && (pyIsNa (Value.num q) || vEqZero (Value.num q))) =
      false := by
    rcases hor with h | h
    · simp [h]
    · simp [pyIsNa, vEqZero, h]
  cases hms : mapSite (safeGet row (siteColOf cols) (Value.str [])) sl <;>
    · simp only [processRow, hms, hskip, hw, convertWeight_num_ok, hpc,
        Bool.false_eq_true, if_false]
      refine ⟨_, _, rfl, ?_⟩
      by_cases hq : q = 0
      · subst hq
        simp [mkOutputRow, rowGet, assocFind, vTruthy]
      · simp [mkOutputRow, rowGet, assocFind, vTruthy, hq]

theorem C4_weight_unit_normalization_witness :
    ((5 : ℚ)/2) * 1000 = 2500 ∧
    (∃ out ws, processRow ("Veolia".data) veoliaConfig
        [("weight".data, some ("Poids".data))] [] none [] [] []
        [(("Poids".data), Value.num (5/2))] = .ok (some out, ws) ∧
      rowGet out ("Masse totale (kg)".data) =
        some (Value.num (if veoliaConfig.weightUnit = "tonnes".data
          then (5/2 : ℚ) * 1000 else (5/2 : ℚ)))) ∧
    (∃ out ws, processRow ("Apeyron".data) apeyronConfig
        [("weight".data, some ("Poids".data))] [] none [] [] []
        [(("Poids".data), Value.num (5/2))] = .ok (some out, ws) ∧
      rowGet out ("Masse totale (kg)".data) =
        some (Value.num (if apeyronConfig.weightUnit = "tonnes".data
          then (5/2 : ℚ) * 1000 else (5/2 : ℚ)))) :=
  ⟨by norm_num,
   C4_weight_unit_normalization ("Veolia".data) veoliaConfig
     [("weight".data, some ("Poids".data))] [] none [] [] []
     [(("Poids".data), Value.num (5/2))] (5/2) (none, none) (Or.inl rfl) rfl rfl,
   C4_weight_unit_normalization ("Apeyron".data) apeyronConfig
     [("weight".data, some ("Poids".data))] [] none [] [] []
     [(("Poids".data), Value.num (5/2))] (5/2) (none, none) (Or.inl rfl) rfl rfl⟩

/-! ## Claim C7 — Paprec container tables -/

/-- C7 counterexample: a Paprec row with container `Bac Roulant 660L`
and an explicit quantity of 0 writes an absent `Volume total (L)`, not
`660 × 0`. -/
theorem C7_paprec_container_counterexample :
    rowField (processRow ("Paprec".data) paprecConfig paprecTestCols [] none [] [] []
      paprecZeroQtyRow) ("Volume total (L)".data) = some Value.na ∧
    some Value.na ≠ some (Value.num (660 * 0)) := by
  exact ⟨by decide, by simp⟩

/-- C7 (amended): for provider Paprec only, a container descriptor whose
lower-cased trimmed form is `bac roulant 660l` yields volume 660,
display type `Bac 4 roues - 660 L`, and total volume `660 × quantity`
for a nonzero numeric quantity but an absent total for a zero quantity;
a descriptor in neither constant table yields display type
`Equipement inconnu` with absent volume and total; a non-Paprec provider
gets absent volume and type. -/
theorem C7_paprec_container :
    (∀ (config : PrestConfig) (cols : ColsMap)
       (dl : List (List Char × Value)) (dd : Option Value)
       (sl : List (List Char × SiteInfo)) (d2a : List (List Char × List Char))
       (tl : List (List Char × TraitEntry)) (row : Row) (q qty : ℚ) (s : List Char),
      config.bsddFormat = false →
      safeGet row (getCol cols ("weight".data)) (Value.num 0) = Value.num q →
      safeGet row (getCol cols ("container".data)) (Value.str []) = Value.str s →
      trimChars (lowerChars s) = ("bac roulant 660l".data) →
      safeGet row (qtyColOf cols) (Value.num 1) = Value.num qty →
      ∃ out ws, processRow ("Paprec".data) config cols dl dd sl d2a tl row =
          .ok (some out, ws) ∧
        rowGet out ("Volume contenant (L)".data) = some (Value.num 660) ∧
        rowGet out ("Type de contenant".data) =
          some (Value.str ("Bac 4 roues - 660 L".data)) ∧
        rowGet out ("Volume total (L)".data) =
          some (if qty = 0 then Value.na else Value.num (660 * qty))) ∧
    (∀ (config : PrestConfig) (cols : ColsMap)
       (dl : List (List Char × Value)) (dd : Option Value)
       (sl : List (List Char × SiteInfo)) (d2a : List (List Char × List Char))
       (tl : List (List Char × TraitEntry)) (row : Row) (q : ℚ) (s : List Char),
      config.bsddFormat = false →
      safeGet row (getCol cols ("weight".data)) (Value.num 0) = Value.num q →
      safeGet row (getCol cols ("container".data)) (Value.str []) = Value.str s →
      s ≠ [] →
      assocFind (trimChars (lowerChars s)) PAPREC_CONTAINER_VOLUMES = none →
      assocFind (trimChars (lowerChars s)) PAPREC_CONTAINER_TYPES = none →
      ∃ out ws, processRow ("Paprec".data) config cols dl dd sl d2a tl row =
          .ok (some out, ws) ∧
        rowGet out ("Volume contenant (L)".data) = some Value.na ∧
        rowGet out ("Type de contenant".data) =
          some (Value.str ("Equipement inconnu".data)) ∧
        rowGet out ("Volume total (L)".data) = some Value.na) ∧
    (∀ (prest : List Char) (config : PrestConfig) (cols : ColsMap)
       (dl : List (List Char × Value)) (dd : Option Value)
       (sl : List (List Char × SiteInfo)) (d2a : List (List Char × List Char))
       (tl : List (List Char × TraitEntry)) (row : Row) (q : ℚ),
      prest ≠ ("Paprec".data) →
      config.bsddFormat = false →
      safeGet row (getCol cols ("weight".data)) (Value.num 0) = Value.num q →
      ∃ out ws, processRow prest config cols dl dd sl d2a tl row = .ok (some out, ws) ∧
        rowGet out ("Volume contenant (L)".data) = some Value.na ∧
        rowGet out ("Type de contenant".data) = some Value.na ∧
        rowGet out ("Volume total (L)".data) = some Value.na) := by
  refine ⟨?_, ?_, ?_⟩
  · intro config cols dl dd sl d2a tl row q qty s hb hw hc hcl hqty
    have hsne : s ≠ [] := by
      intro h
      subst h
      simp [trimChars, lowerChars] at hcl
    have hpc : paprecContainer ("Paprec".data)
        (safeGet row (getCol cols ("container".data)) (Value.str [])) =
        .ok (some 660, some ("Bac 4 roues - 660 L".data)) := by
      rw [hc]
      unfold paprecContainer
      rw [if_pos (by simp [vTruthy, List.isEmpty_eq_false, hsne])]
      simp only [hcl]
      decide
    cases hms : mapSite (safeGet row (siteColOf cols) (Value.str [])) sl <;>
      · simp only [processRow, hms, hb, hw, hqty, convertWeight_num_ok, hpc,
          Bool.false_and, Bool.false_eq_true, if_false]
        refine ⟨_, _, rfl, by simp [mkOutputRow, rowGet, assocFind],
          by simp [mkOutputRow, rowGet, assocFind], ?_⟩
        by_cases hq0 : qty = 0
        · subst hq0
          simp [mkOutputRow, rowGet, assocFind, vTruthy]
        · simp [mkOutputRow, rowGet, assocFind, vTruthy, hq0, volTimesQty]
  · intro config cols dl dd sl d2a tl row q s hb hw hc hsne hv ht
    have hpc : paprecContainer ("Paprec".data)
        (safeGet row (getCol cols ("container".data)) (Value.str [])) =
        .ok (none, some ("Equipement inconnu".data)) := by
      rw [hc]
      unfold paprecContainer
      rw [if_pos (by simp [vTruthy, List.isEmpty_eq_false, hsne])]
      simp [hv, ht]
    cases hms : mapSite (safeGet row (siteColOf cols) (Value.str [])) sl <;>
      · simp only [processRow, hms, hb, hw, convertWeight_num_ok, hpc,
          Bool.false_and, Bool.false_eq_true, if_false]
        exact ⟨_, _, rfl, by simp [mkOutputRow, rowGet, assocFind],
          by simp [mkOutputRow, rowGet, assocFind],
          by simp [mkOutputRow, rowGet, assocFind]⟩
  · intro prest config cols dl dd sl d2a tl row q hp hb hw
    have hpc : paprecContainer prest
        (safeGet row (getCol cols ("container".data)) (Value.str [])) =
        .ok (none, none) := by
      unfold paprecContainer
      rw [if_neg (by simp [hp])]
    cases hms : mapSite (safeGet row (siteColOf cols) (Value.str [])) sl <;>
      · simp only [processRow, hms, hb, hw, convertWeight_num_ok, hpc,
          Bool.false_and, Bool.false_eq_true, if_false]
        exact ⟨_, _, rfl, by simp [mkOutputRow, rowGet, assocFind],
          by simp [mkOutputRow, rowGet, assocFind],
          by simp [mkOutputRow, rowGet, assocFind]⟩

theorem C7_paprec_container_witness :
    ∃ out ws, processRow ("Paprec".data) paprecConfig paprecTestCols [] none [] [] []
        [(("Libellé matériel".data), Value.str ("  BAC ROULANT 660L ".data)),
         (("Quantité".data), Value.num 3),
         (("Poids".data), Value.num 12)] = .ok (some out, ws) ∧
      rowGet out ("Volume contenant (L)".data) = some (Value.num 660) ∧
      rowGet out ("Type de contenant".data) =
        some (Value.str ("Bac 4 roues - 660 L".data)) ∧
      rowGet out ("Volume total (L)".data) =
        some (if (3 : ℚ) = 0 then Value.na else Value.num (660 * 3)) :=
  C7_paprec_container.1 paprecConfig paprecTestCols [] none [] [] []
    [(("Libellé matériel".data), Value.str ("  BAC ROULANT 660L ".data)),
     (("Quantité".data), Value.num 3),
     (("Poids".data), Value.num 12)] 12 3 ("  BAC ROULANT 660L ".data)
    rfl (by decide) (by decide) (by decide) (by decide)

/-! ## Claim C9 — worksheet selection -/

/-- A keyword block with no matching sheet leaves the accumulated choice
unchanged. -/
lemma chooseSheet_foldl_none (sheetNames : List (List Char))
    (l : List (List Char)) (acc : SheetChoice)
    (h : ∀ p ∈ l,
      sheetNames.find? (fun s => pyIn (lowerChars p) (lowerChars s)) = none) :
    l.foldl (fun acc p =>
      match sheetNames.find? (fun s => pyIn (lowerChars p) (lowerChars s)) with
      | some s => SheetChoice.name s
      | none => acc) acc = acc := by
  induction l generalizing acc with
  | nil => rfl
  | cons p t ih =>
    rw [List.foldl_cons, h p (List.mem_cons_self p t)]
    exact ih acc (fun q hq => h q (List.mem_cons_of_mem p hq))

/-- C9 counterexample: with Suez's keyword list
`["registre", "déchets", "data"]` and workbook sheets
`["Registre", "Data"]`, the chosen worksheet is `Data` — the first match
of the last matching keyword — not `Registre`, the first keyword's first
match. -/
theorem C9_sheet_selection_counterexample :
    chooseSheet suezConfig [("Registre".data), ("Data".data)] =
      SheetChoice.name ("Data".data) ∧
    SheetChoice.name ("Data".data) ≠ SheetChoice.name ("Registre".data) := by
  exact ⟨by decide, by decide⟩

/-- C9 (amended): with a configured keyword list, the worksheet chosen is
the first case-insensitive substring match of the last keyword that has
any match (each keyword's scan overwrites the previous choice); when no
keyword matches, the first sheet by position; with no keyword list, the
literal lower-case name `registre` when some sheet name lower-cases to
it, else the first sheet by position. -/
theorem C9_sheet_selection :
    (∀ (config : PrestConfig) (sheetNames : List (List Char))
       (p1 p2 : List (List Char)) (p m : List Char),
      config.sheetPatterns = some (p1 ++ p :: p2) →
      sheetNames.find? (fun s => pyIn (lowerChars p) (lowerChars s)) = some m →
      (∀ p' ∈ p2,
        sheetNames.find? (fun s => pyIn (lowerChars p') (lowerChars s)) = none) →
      chooseSheet config sheetNames = SheetChoice.name m) ∧
    (∀ (config : PrestConfig) (sheetNames : List (List Char))
       (pats : List (List Char)),
      config.sheetPatterns = some pats →
      (∀ p ∈ pats,
        sheetNames.find? (fun s => pyIn (lowerChars p) (lowerChars s)) = none) →
      chooseSheet config sheetNames = SheetChoice.pos 0) ∧
    (∀ (config : PrestConfig) (sheetNames : List (List Char)),
      config.sheetPatterns = none →
      (sheetNames.map lowerChars).contains ("registre".data) = true →
      chooseSheet config sheetNames = SheetChoice.name ("registre".data)) ∧
    (∀ (config : PrestConfig) (sheetNames : List (List Char)),
      config.sheetPatterns = none →
      (sheetNames.map lowerChars).contains ("registre".data) = false →
      chooseSheet config sheetNames = SheetChoice.pos 0) := by
  refine ⟨?_, ?_, ?_, ?_⟩
  · intro config sheetNames p1 p2 p m hpat hfind hnone
    unfold chooseSheet
    simp only [hpat]
    rw [List.foldl_append, List.foldl_cons, hfind]
    exact chooseSheet_foldl_none sheetNames p2 _ hnone
  · intro config sheetNames pats hpat hnone
    unfold chooseSheet
    simp only [hpat]
    exact chooseSheet_foldl_none sheetNames pats _ hnone
  · intro config sheetNames hpat hreg
    unfold chooseSheet
    simp only [hpat, hreg]
    rw [if_true]
  · intro config sheetNames hpat hreg
    unfold chooseSheet
    simp only [hpat, hreg, Bool.false_eq_true, if_false]

theorem C9_sheet_selection_witness :
    chooseSheet suezConfig [("Déchets 2024".data)] =
      SheetChoice.name ("Déchets 2024".data) :=
  C9_sheet_selection.1 suezConfig [("Déchets 2024".data)]
    [("registre".data)] [("data".data)] ("déchets".data) ("Déchets 2024".data)
    (by decide) (by decide) (by decide)

/-! ## Claim C1 — template column alignment -/

/-- The assembled record's keys are the fixed output key list. -/
lemma mkOutputRow_keys (prestataire : List Char) (siteInfo : SiteInfo)
    (dechetFin : Option Value) (dechetsAgrege : Option (List Char))
    (dechetsPrest codePrest codeFinal : Value) (traitement : Option Value)
    (weightKg : ℚ) (dateVal bsd wasteCode transporter exutoire quantity : Value)
    (volumeContenant : Option ℕ) (typeContenant : Option (List Char))
    (prestataireName : Value) :
    (mkOutputRow prestataire siteInfo dechetFin dechetsAgrege dechetsPrest codePrest
      codeFinal traitement weightKg dateVal bsd wasteCode transporter exutoire
      quantity volumeContenant typeContenant prestataireName).map Prod.fst =
      OUTPUT_KEYS := rfl

/-- A lookup of a key a row does not carry misses. -/
lemma assocFind_none_of_not_mem {c : List Char} {r : List (List Char × α)}
    (h : c ∉ r.map Prod.fst) : assocFind c r = none := by
  induction r with
  | nil => rfl
  | cons p t ih =>
    simp only [List.map_cons, List.mem_cons, not_or] at h
    unfold assocFind
    rw [if_neg (fun he => h.1 he.symm)]
    exact ih h.2

/-- A lookup in an all-missing suffix yields nothing or a missing cell. -/
lemma assocFind_all_na {c : List Char} {E : Row} (hE : ∀ p ∈ E, p.2 = Value.na) :
    assocFind c E = none ∨ assocFind c E = some Value.na := by
  induction E with
  | nil => exact Or.inl rfl
  | cons p t ih =>
    unfold assocFind
    by_cases hpc : p.1 = c
    · rw [if_pos hpc]
      exact Or.inr (by rw [hE p (List.mem_cons_self p t)])
    · rw [if_neg hpc]
      exact ih (fun q hq => hE q (List.mem_cons_of_mem p hq))

/-- Appending all-missing entries does not change any cell read. -/
lemma rowGetD_append_na {E : Row} (hE : ∀ p ∈ E, p.2 = Value.na)
    (r0 : Row) (c : List Char) : rowGetD (r0 ++ E) c = rowGetD r0 c := by
  unfold rowGetD rowGet
  induction r0 with
  | nil =>
    simp only [List.nil_append]
    rcases assocFind_all_na hE (c := c) with h | h <;> simp [h, assocFind]
  | cons p t ih =>
    simp only [List.cons_append]
    unfold assocFind
    by_cases hpc : p.1 = c
    · simp [hpc]
    · simp only [if_neg hpc]
      exact ih

/-- The missing-column fill of the template alignment only appends
all-missing entries to every row. -/
lemma fill_rows (t : List (List Char)) (df : DataFrame) :
    ∃ E, (∀ p ∈ E, p.2 = Value.na) ∧
      (t.foldl (fun d c => if d.cols.contains c then d else setCol c Value.na d)
        df).rows = df.rows.map (fun r => r ++ E) := by
  induction t generalizing df with
  | nil => exact ⟨[], by simp, by simp⟩
  | cons c t ih =>
    rw [List.foldl_cons]
    by_cases hc : df.cols.contains c = true
    · simp only [hc, if_true]
      exact ih df
    · simp only [hc, Bool.false_eq_true, if_false]
      have hset : setCol c Value.na df =
          { cols := df.cols ++ [c], rows := df.rows.map (fun r => r ++ [(c, Value.na)]) } := by
        unfold setCol
        rw [if_neg hc]
      rw [hset]
      obtain ⟨E2, hE2, hrows⟩ :=
        ih ⟨df.cols ++ [c], df.rows.map (fun r => r ++ [(c, Value.na)])⟩
      refine ⟨(c, Value.na) :: E2, ?_, ?_⟩
      · intro p hp
        rcases List.mem_cons.mp hp with h | h
        · rw [h]
        · exact hE2 p h
      · rw [hrows, List.map_map]
        apply List.map_congr_left
        intro r _
        simp [Function.comp, List.append_assoc]

/-- The aligned frame's rows are exactly the template projection of the
produced records. -/
lemma alignToTemplate_rows (t : List (List Char)) (df : DataFrame) :
    (alignToTemplate t df).rows =
      df.rows.map (fun r0 => t.map (fun c => (c, rowGetD r0 c))) := by
  unfold alignToTemplate
  obtain ⟨E, hE, hrows⟩ := fill_rows t df
  simp only [hrows, List.map_map]
  apply List.map_congr_left
  intro r _
  simp [Function.comp, rowGetD_append_na hE]

/-- A produced record always has the fixed output keys. -/
lemma processRow_out_keys {prest : List Char} {config : PrestConfig} {cols : ColsMap}
    {dl : List (List Char × Value)} {dd : Option Value}
    {sl : List (List Char × SiteInfo)} {d2a : List (List Char × List Char)}
    {tl : List (List Char × TraitEntry)} {row o : Row} {ws : List (List Char)}
    (h : processRow prest config cols dl dd sl d2a tl row = .ok (some o, ws)) :
    o.map Prod.fst = OUTPUT_KEYS := by
  unfold processRow at h
  cases hms : mapSite (safeGet row (siteColOf cols) (Value.str [])) sl <;>
    simp only [hms] at h <;>
    · split at h
      · simp at h
      · split at h
        · simp at h
        · split at h
          · simp at h
          · simp only [Except.ok.injEq, Prod.mk.injEq, Option.some.injEq] at h
            rw [← h.1]
            exact mkOutputRow_keys _ _ _ _ _ _ _ _ _ _ _ _ _ _ _ _ _ _

/-- Every record the row loop collects has the fixed output keys. -/
lemma processRows_keys {prest : List Char} {config : PrestConfig} {cols : ColsMap}
    {dl : List (List Char × Value)} {dd : Option Value}
    {sl : List (List Char × SiteInfo)} {d2a : List (List Char × List Char)}
    {tl : List (List Char × TraitEntry)} :
    ∀ (rows : List Row) (outs : List Row) (sk : ℕ) (ws : List (List Char)),
      processRows prest config cols dl dd sl d2a tl rows = .ok (outs, sk, ws) →
      ∀ o ∈ outs, o.map Prod.fst = OUTPUT_KEYS := by
  intro rows
  induction rows with
  | nil =>
    intro outs sk ws h o ho
    simp only [processRows, Except.ok.injEq, Prod.mk.injEq] at h
    rw [← h.1] at ho
    simp at ho
  | cons r rs ih =>
    intro outs sk ws h o ho
    rw [processRows] at h
    cases hr : processRow prest config cols dl dd sl d2a tl r with
    | error e => rw [hr] at h; simp at h
    | ok rw1 =>
      obtain ⟨res, ws1⟩ := rw1
      rw [hr] at h
      cases hrs : processRows prest config cols dl dd sl d2a tl rs with
      | error e => rw [hrs] at h; simp at h
      | ok t3 =>
        obtain ⟨outs2, sk2, ws2⟩ := t3
        rw [hrs] at h
        simp only [Except.ok.injEq, Prod.mk.injEq] at h
        rw [← h.1] at ho
        cases res with
        | none =>
          simp only [List.nil_append] at ho
          exact ih outs2 sk2 ws2 hrs o ho
        | some o0 =>
          rcases List.mem_append.mp ho with h1 | h1
          · rw [List.mem_singleton.mp h1]
            exact processRow_out_keys hr
          · exact ih outs2 sk2 ws2 hrs o h1

/-- A successful `process` body yields the template alignment of the
collected records. -/
lemma processBody_ok {st : ETLState} {files : List RawFile} {prest : List Char}
    {df : DataFrame} {sk : ℕ} {ws : List (List Char)}
    (h : processBody st files prest = .ok (df, sk, ws)) :
    ∃ recs, (∀ o ∈ recs, o.map Prod.fst = OUTPUT_KEYS) ∧
      df = alignToTemplate st.templateCols (frameOfRecords recs) := by
  simp only [processBody] at h
  split at h
  · simp at h
  · split at h
    · simp at h
    · split at h
      · simp at h
      · rename_i outs sk2 ws2 heq
        simp only [Except.ok.injEq, Prod.mk.injEq] at h
        exact ⟨outs, processRows_keys _ _ _ _ heq, h.1.symm⟩

/-- C1: a successful `process` returns a table whose column list (per
row, in order) is exactly the template's header columns: the rows are the
template projection of the produced records, so template columns absent
from the produced keys read as all-missing and produced fields outside
the template are dropped.  The concrete Veolia run exhibits this with an
extra template column `ColX` and a template omitting most produced
fields. -/
theorem C1_output_column_alignment :
    (∀ (prevW : List (List Char)) (st : ETLState) (files : List RawFile)
       (prest : List Char) (df : DataFrame),
      (process prevW st files prest).data = some df →
      df.cols = st.templateCols ∧
      (∀ r ∈ df.rows, r.map Prod.fst = st.templateCols) ∧
      (∃ recs : List Row, (∀ o ∈ recs, o.map Prod.fst = OUTPUT_KEYS) ∧
        df.rows = recs.map (fun r0 =>
          st.templateCols.map (fun c => (c, rowGetD r0 c))))) ∧
    (∀ (c : List Char) (r0 : Row),
      r0.map Prod.fst = OUTPUT_KEYS → c ∉ OUTPUT_KEYS → rowGetD r0 c = Value.na) ∧
    process [] veoliaTestState [veoliaTestFile] ("Veolia".data) =
      { success := true, error := none,
        data := some { cols := veoliaTestState.templateCols,
                       rows := [[("Nom du site".data, Value.str ("PAR01 - Paris HQ".data)),
                                 ("Masse totale (kg)".data, Value.num (rq 5 2 * 1000)),
                                 ("Code traitement".data, Value.str ("R3F".data)),
                                 ("ColX".data, Value.na)]] },
        rowsProcessed := 1, rowsSkipped := 0, warnings := [] } := by
  refine ⟨?_, ?_, rfl⟩
  · intro prevW st files prest df hdata
    unfold process at hdata
    cases hb : processBody st files prest with
    | error e =>
      rw [hb] at hdata
      simp at hdata
    | ok t3 =>
      obtain ⟨df0, sk0, ws0⟩ := t3
      rw [hb] at hdata
      simp only [Option.some.injEq] at hdata
      obtain ⟨recs, hkeys, hdf⟩ := processBody_ok hb
      rw [← hdata, hdf]
      refine ⟨rfl, ?_, recs, hkeys, alignToTemplate_rows _ _⟩
      intro r hr
      rw [alignToTemplate_rows] at hr
      obtain ⟨r0, _, hr0⟩ := List.mem_map.mp hr
      rw [← hr0, List.map_map]
      exact List.map_id _
  · intro c r0 hk hc
    unfold rowGetD rowGet
    rw [assocFind_none_of_not_mem (by rw [hk]; exact hc)]
    rfl

theorem C1_output_column_alignment_witness :
    ({ cols := veoliaTestState.templateCols,
       rows := [[("Nom du site".data, Value.str ("PAR01 - Paris HQ".data)),
                 ("Masse totale (kg)".data, Value.num (rq 5 2 * 1000)),
                 ("Code traitement".data, Value.str ("R3F".data)),
                 ("ColX".data, Value.na)]] } : DataFrame).cols =
      veoliaTestState.templateCols ∧
    (∀ r ∈ ({ cols := veoliaTestState.templateCols,
              rows := [[("Nom du site".data, Value.str ("PAR01 - Paris HQ".data)),
                        ("Masse totale (kg)".data, Value.num (rq 5 2 * 1000)),
                        ("Code traitement".data, Value.str ("R3F".data)),
                        ("ColX".data, Value.na)]] } : DataFrame).rows,
      r.map Prod.fst = veoliaTestState.templateCols) ∧
    (∃ recs : List Row, (∀ o ∈ recs, o.map Prod.fst = OUTPUT_KEYS) ∧
      ({ cols := veoliaTestState.templateCols,
         rows := [[("Nom du site".data, Value.str ("PAR01 - Paris HQ".data)),
                   ("Masse totale (kg)".data, Value.num (rq 5 2 * 1000)),
                   ("Code traitement".data, Value.str ("R3F".data)),
                   ("ColX".data, Value.na)]] } : DataFrame).rows =
        recs.map (fun r0 =>
          veoliaTestState.templateCols.map (fun c => (c, rowGetD r0 c)))) :=
  C1_output_column_alignment.1 [] veoliaTestState [veoliaTestFile] ("Veolia".data)
    { cols := veoliaTestState.templateCols,
      rows := [[("Nom du site".data, Value.str ("PAR01 - Paris HQ".data)),
                ("Masse totale (kg)".data, Value.num (rq 5 2 * 1000)),
                ("Code traitement".data, Value.str ("R3F".data)),
                ("ColX".data, Value.na)]] } rfl

/-! ## Claim C2 — structured failure results -/

/-- The read loop surfaces the first unreadable file's fault. -/
lemma readAll_error_prefix :
    ∀ (pre : List RawFile) (name msg : List Char) (post : List RawFile),
      (∀ f ∈ pre, (readFile f).isOk = true) →
      readAll (pre ++ RawFile.unreadable name msg :: post) = .error msg := by
  intro pre
  induction pre with
  | nil => intro name msg post _; rfl
  | cons f fs ih =>
    intro name msg post h
    rw [List.cons_append, readAll]
    cases hf : readFile f with
    | error m =>
      have hok := h f (List.mem_cons_self f fs)
      rw [hf] at hok
      simp [Except.isOk, Except.toBool] at hok
    | ok d =>
      rw [ih name msg post (fun g hg => h g (List.mem_cons_of_mem f hg))]

/-- C2: `process` never propagates a fault: a failing invocation returns
a structured result with a null table, zero counts and the fault's
message; the warning log is reset on entry (the result is independent of
any previously accumulated warnings); a fault while reading returns the
warnings gathered so far (none); and the concrete Veolia run whose
second row's weight cannot be converted fails with exactly the two site
warnings recorded before the fault. -/
theorem C2_failure_result :
    (∀ (prevW : List (List Char)) (st : ETLState) (files : List RawFile)
       (prest : List Char),
      (process prevW st files prest).success = false →
      (process prevW st files prest).data = none ∧
      (process prevW st files prest).rowsProcessed = 0 ∧
      (process prevW st files prest).rowsSkipped = 0 ∧
      ((process prevW st files prest).error).isSome = true) ∧
    (∀ (w w' : List (List Char)) (st : ETLState) (files : List RawFile)
       (prest : List Char), process w st files prest = process w' st files prest) ∧
    (∀ (prevW : List (List Char)) (st : ETLState) (pre : List RawFile)
       (name msg : List Char) (post : List RawFile) (prest : List Char),
      (∀ f ∈ pre, (readFile f).isOk = true) →
      process prevW st (pre ++ RawFile.unreadable name msg :: post) prest =
        { success := false, error := some msg, data := none,
          rowsProcessed := 0, rowsSkipped := 0, warnings := [] }) ∧
    process [] minState [veoliaFaultFile] ("Veolia".data) =
      { success := false,
        error := some (("could not convert string to float: 'abc'").data),
        data := none, rowsProcessed := 0, rowsSkipped := 0,
        warnings := [noSiteWarning (Value.str []), noSiteWarning (Value.str [])] } := by
  refine ⟨?_, ?_, ?_, by decide⟩
  · intro prevW st files prest hs
    unfold process at hs ⊢
    cases hb : processBody st files prest with
    | ok t3 =>
      rw [hb] at hs
      simp at hs
    | error e =>
      obtain ⟨m, ws⟩ := e
      exact ⟨rfl, rfl, rfl, rfl⟩
  · intro w w' st files prest
    rfl
  · intro prevW st pre name msg post prest h
    unfold process
    simp only [processBody, readAll_error_prefix pre name msg post h]

theorem C2_failure_result_witness :
    process [] minState
        [veoliaTestFile, RawFile.unreadable ("bad.xlsx".data) ("Parse error".data)]
        ("Veolia".data) =
      { success := false, error := some ("Parse error".data), data := none,
        rowsProcessed := 0, rowsSkipped := 0, warnings := [] } :=
  C2_failure_result.2.2.1 [] minState [veoliaTestFile] ("bad.xlsx".data)
    ("Parse error".data) [] ("Veolia".data) (by decide)
